import Mathlib

/-!
Verification of the Avatar primitive (Root / Image / Fallback).

The image-loading logic of `Avatar.tsx` is embedded as explicit state
machines:

* `setImageSrcAndGetInitialState` is a direct translation of the function of
  the same name: it receives the decode handle's current `src` and the
  requested source and returns the (possibly reassigned) handle `src`
  together with the computed `ImageLoadingStatus`.  The browser-level decode
  handle is abstracted by `ImgPlatform`, which answers `complete` and
  `naturalWidth` queries for the string currently assigned to the handle.
* `ImgState`/`stepImg` model one mounted `AvatarImage` instance driven by
  `useImageLoadingStatus`: re-renders with a (possibly new) `src` prop,
  asynchronous `load`/`error` notifications fired by the platform on the
  resident handle, and unmount.  The effect semantics follow React: the
  `[src]` layout effect re-runs only when the `src` prop changes, the `[]`
  subscription effect runs once at mount and its cleanup once at unmount,
  and the notify layout effect re-runs exactly when the status value
  changes, calling the instance-local `onLoadingStatusChange` callback and
  then the shared Root setter whenever the status is not `idle`.
  `history` is a ghost field recording every actual status transition;
  `notifications` records the callback invocations in order; `rootStatus`
  is the shared Root store written by the Root setter.
* `FallbackState`/`stepFb` model one mounted `AvatarFallback` instance:
  the `canRender` state is initialised to `delayMs === undefined`, the
  `[delayMs]` effect schedules a timer when a delay is configured (clearing
  the previous one on re-run and on unmount), and a pending timer firing
  sets `canRender := true`.
-/

inductive ImageLoadingStatus where
  | idle
  | loading
  | loaded
  | error
deriving DecidableEq, Repr

/-- The browser image-decode handle surface consumed by the loader: given the
string currently assigned to the handle's `src`, whether the handle reports
the decode as `complete` and what `naturalWidth` it reports.  This models
browser-level caching: a cached URL reports complete with positive width
synchronously after assignment. -/
structure ImgPlatform where
  complete : String → Bool
  naturalWidth : String → Nat

/-- JavaScript truthiness of the optional `src` prop: `!src` holds exactly for
an absent source or the empty string. -/
def jsFalsy : Option String → Bool
  | none => true
  | some s => s = ""

/-- Translation of `setImageSrcAndGetInitialState(image, src)`: on a falsy
source return `error` without touching the handle; otherwise assign the
handle `src` when it differs and compute `loaded` iff the handle reports
complete with positive natural width, else `loading`.  Returns the handle's
`src` after the call together with the status. -/
def setImageSrcAndGetInitialState (env : ImgPlatform) (image : String)
    (src : Option String) : String × ImageLoadingStatus :=
  match src with
  | none => (image, ImageLoadingStatus.error)
  | some s =>
    if s = "" then (image, ImageLoadingStatus.error)
    else
      let image' := if image ≠ s then s else image
      (image',
        if env.complete image' && decide (0 < env.naturalWidth image') then
          ImageLoadingStatus.loaded
        else ImageLoadingStatus.loading)

/-- The two external status-change callbacks of `AvatarImage`, in the order
`handleLoadingStatusChange` invokes them. -/
inductive Callee where
  | onLoadingStatusChange
  | rootSetter
deriving DecidableEq, Repr

/-- One status transition produces this notification batch: the
instance-local callback first, then the shared Root setter. -/
def notifPair (s : ImageLoadingStatus) : List (Callee × ImageLoadingStatus) :=
  [(Callee.onLoadingStatusChange, s), (Callee.rootSetter, s)]

/-- State of one `AvatarImage` instance together with its resident decode
handle and observation ghosts. -/
structure ImgState where
  mounted : Bool
  /-- current `src` prop -/
  src : Option String
  /-- the resident decode handle's `src` (empty = never assigned) -/
  imageSrc : String
  /-- the `loadingStatus` React state of `useImageLoadingStatus` -/
  status : ImageLoadingStatus
  /-- the shared Root store, written via `context.onImageLoadingStatusChange` -/
  rootStatus : ImageLoadingStatus
  /-- total `addEventListener` calls on the handle -/
  subscribeCount : Nat
  /-- total `removeEventListener` calls on the handle -/
  unsubscribeCount : Nat
  /-- ghost: every actual status transition, in order -/
  history : List ImageLoadingStatus
  /-- ghost: every external callback invocation, in order -/
  notifications : List (Callee × ImageLoadingStatus)
deriving DecidableEq, Repr

/-- `setLoadingStatus` followed by the notify layout effect: if the value is
unchanged React bails out (no re-render, effect deps unchanged); on an actual
transition the transition is recorded and, when the new status is not `idle`,
the instance-local callback and then the Root setter are invoked. -/
def applyStatusChange (st : ImgState) (new : ImageLoadingStatus) : ImgState :=
  if new = st.status then st
  else
    let st' := { st with status := new, history := st.history ++ [new] }
    if new = ImageLoadingStatus.idle then st'
    else
      { st' with
        notifications := st'.notifications ++ notifPair new,
        rootStatus := new }

/-- Events that can reach a mounted `AvatarImage` instance. -/
inductive ImgEvent where
  /-- a re-render with a (possibly unchanged) `src` prop -/
  | rerender (src : Option String)
  /-- the platform fires `load` on the resident handle -/
  | load
  /-- the platform fires `error` on the resident handle -/
  | fail
  | unmount
deriving DecidableEq, Repr

/-- One step of the instance.  A re-render with an unchanged `src` re-runs no
effect.  `load`/`error` notifications require a handle that was actually
assigned a source and a mounted instance (the `[]` effect's cleanup removed
the listeners at unmount).  Unmount runs the subscription cleanup. -/
def stepImg (env : ImgPlatform) (st : ImgState) : ImgEvent → ImgState
  | ImgEvent.rerender src =>
    if !st.mounted then st
    else if src = st.src then st
    else
      let r := setImageSrcAndGetInitialState env st.imageSrc src
      applyStatusChange { st with src := src, imageSrc := r.1 } r.2
  | ImgEvent.load =>
    if st.mounted && !(st.imageSrc == "") then
      applyStatusChange st ImageLoadingStatus.loaded
    else st
  | ImgEvent.fail =>
    if st.mounted && !(st.imageSrc == "") then
      applyStatusChange st ImageLoadingStatus.error
    else st
  | ImgEvent.unmount =>
    if st.mounted then
      { st with mounted := false, unsubscribeCount := st.unsubscribeCount + 2 }
    else st

def runImg (env : ImgPlatform) (st : ImgState) : List ImgEvent → ImgState
  | [] => st
  | e :: es => runImg env (stepImg env st e) es

/-- Mounting `AvatarImage src`: a fresh handle (`src = ""`), the `useState`
initialiser and first `[src]` layout effect computing the initial status, the
`[]` effect adding the two listeners, and the notify effect's first run. -/
def mountImg (env : ImgPlatform) (src : Option String) : ImgState :=
  let init : ImgState :=
    { mounted := true, src := src, imageSrc := ""
      status := ImageLoadingStatus.idle, rootStatus := ImageLoadingStatus.idle
      subscribeCount := 2, unsubscribeCount := 0
      history := [], notifications := [] }
  let r := setImageSrcAndGetInitialState env "" src
  applyStatusChange { init with imageSrc := r.1 } r.2

/-- The render output of `AvatarImage`: `some src` when the `img` element is
rendered (carrying the current `src` prop), `none` otherwise. -/
def renderImage (st : ImgState) : Option (Option String) :=
  if st.status = ImageLoadingStatus.loaded then some st.src else none

/-- Does every `rerender` event in the list carry a falsy (absent or empty)
source? -/
def falsyRerenders : List ImgEvent → Bool
  | [] => true
  | ImgEvent.rerender s :: es => jsFalsy s && falsyRerenders es
  | _ :: es => falsyRerenders es

/-- State of one `AvatarFallback` instance. -/
structure FallbackState where
  mounted : Bool
  /-- current `delayMs` prop -/
  delayMs : Option Nat
  /-- the `canRender` React state -/
  canRender : Bool
  /-- the pending timer scheduled by the `[delayMs]` effect, if any -/
  timer : Option Nat
deriving DecidableEq, Repr

/-- Mounting `AvatarFallback delayMs`: `canRender` is initialised to
`delayMs === undefined`; the effect schedules a timer exactly when a delay is
configured. -/
def mountFallback (delayMs : Option Nat) : FallbackState :=
  { mounted := true, delayMs := delayMs, canRender := delayMs.isNone
    timer := delayMs }

/-- Events that can reach a mounted `AvatarFallback` instance. -/
inductive FbEvent where
  /-- a re-render with a (possibly unchanged) `delayMs` prop -/
  | setDelay (d : Option Nat)
  /-- the pending timer elapses -/
  | timerFire
  | unmount
deriving DecidableEq, Repr

/-- One step of the fallback instance.  A re-render with an unchanged
`delayMs` re-runs no effect; a changed one runs the effect cleanup (clearing
the old timer) and the effect body (scheduling a new timer exactly when the
new value is a number).  A pending timer firing runs `setCanRender(true)`.
Unmount runs the effect cleanup, cancelling any pending timer. -/
def stepFb (st : FallbackState) : FbEvent → FallbackState
  | FbEvent.setDelay d =>
    if !st.mounted then st
    else if d = st.delayMs then st
    else { st with delayMs := d, timer := d }
  | FbEvent.timerFire =>
    if st.mounted && st.timer.isSome then
      { st with canRender := true, timer := none }
    else st
  | FbEvent.unmount =>
    if st.mounted then { st with mounted := false, timer := none } else st

def runFb (st : FallbackState) : List FbEvent → FallbackState
  | [] => st
  | e :: es => runFb (stepFb st e) es

/-- The render condition of `AvatarFallback`:
`canRender && context.imageLoadingStatus !== 'loaded'`. -/
def fallbackVisible (st : FallbackState) (status : ImageLoadingStatus) : Bool :=
  st.canRender && decide (status ≠ ImageLoadingStatus.loaded)

/-- Whether some pending timer actually fires along the event list (the
spec's "the configured delay has elapsed"). -/
def timerFired (st : FallbackState) : List FbEvent → Bool
  | [] => false
  | e :: es =>
    (decide (e = FbEvent.timerFire) && st.mounted && st.timer.isSome)
      || timerFired (stepFb st e) es

/-- A platform on which no URL is cached and no URL has data: every decode is
asynchronous. -/
def coldPlatform : ImgPlatform :=
  { complete := fun _ => false, naturalWidth := fun _ => 0 }

/-- A platform on which every URL is cached with data: every decode completes
synchronously at assignment. -/
def warmPlatform : ImgPlatform :=
  { complete := fun _ => true, naturalWidth := fun _ => 300 }

/-- The main invariant of a mounted-then-driven `AvatarImage` instance: every
callback invocation comes from recorded transitions (instance-local callback
first, Root setter second, per transition), no recorded transition is `idle`,
the two listeners were installed exactly once and removed exactly at unmount,
the shared Root store agrees with the instance status, and the status left
`idle` at mount for good. -/
def imgInv (st : ImgState) : Prop :=
  st.notifications = st.history.flatMap notifPair ∧
  (∀ s ∈ st.history, s ≠ ImageLoadingStatus.idle) ∧
  st.subscribeCount = 2 ∧
  st.unsubscribeCount = (if st.mounted = true then 0 else 2) ∧
  st.rootStatus = st.status ∧
  st.status ≠ ImageLoadingStatus.idle

/-! ### Helper lemmas about the fallback gate -/

theorem stepFb_canRender (st : FallbackState) (e : FbEvent) :
    (stepFb st e).canRender =
      (st.canRender
        || (decide (e = FbEvent.timerFire) && st.mounted && st.timer.isSome)) := by
  cases e <;> by_cases hm : st.mounted = true <;>
    simp [stepFb, hm] <;> (try split) <;> simp_all

theorem runFb_canRender (st : FallbackState) (evs : List FbEvent) :
    (runFb st evs).canRender = (st.canRender || timerFired st evs) := by
  induction evs generalizing st with
  | nil => simp [runFb, timerFired]
  | cons e es ih =>
    simp [runFb, timerFired, ih, stepFb_canRender, Bool.or_assoc]

theorem stepFb_unmounted (st : FallbackState) (e : FbEvent)
    (h : st.mounted = false) : stepFb st e = st := by
  cases e <;> simp [stepFb, h]

theorem runFb_unmounted (st : FallbackState) (evs : List FbEvent)
    (h : st.mounted = false) : runFb st evs = st := by
  induction evs with
  | nil => rfl
  | cons e es ih => rw [runFb, stepFb_unmounted st e h]; exact ih

theorem stepFb_timerInv (st : FallbackState) (e : FbEvent)
    (h : st.mounted = false → st.timer = none) :
    (stepFb st e).mounted = false → (stepFb st e).timer = none := by
  cases e <;> by_cases hm : st.mounted = true <;>
    simp [stepFb, hm] <;> (try split) <;> simp_all

theorem runFb_timerInv (st : FallbackState) (evs : List FbEvent)
    (h : st.mounted = false → st.timer = none) :
    (runFb st evs).mounted = false → (runFb st evs).timer = none := by
  induction evs generalizing st with
  | nil => exact h
  | cons e es ih => exact ih (stepFb st e) (stepFb_timerInv st e h)

/-! ### Fallback Gate claims -/

/-- C5: At every evaluation of the Fallback Gate, the fallback is rendered if
and only if (the configured delay has elapsed — i.e. the scheduled delay
timer has fired — or no delay was configured) and the shared status is not
`loaded`; with no delay configured the eligibility side holds from the very
first render. -/
theorem c5_fallback_visibility (d : Option Nat) (evs : List FbEvent)
    (status : ImageLoadingStatus) :
    fallbackVisible (runFb (mountFallback d) evs) status =
      ((d.isNone || timerFired (mountFallback d) evs)
        && decide (status ≠ ImageLoadingStatus.loaded)) := by
  simp [fallbackVisible, runFb_canRender, mountFallback]

/-- C6 counterexample: mounting with `delayMs = 5` and then changing the delay
to absent does NOT satisfy eligibility from the start: `canRender` stays
`false`, the old timer is cancelled and no new one exists, so the fallback is
not rendered even though the status (`error`) is not `loaded`, and even a
later timer tick changes nothing. -/
theorem c6_counterexample :
    (stepFb (mountFallback (some 5)) (FbEvent.setDelay none)).canRender = false ∧
    fallbackVisible (stepFb (mountFallback (some 5)) (FbEvent.setDelay none))
      ImageLoadingStatus.error = false ∧
    (runFb (mountFallback (some 5))
      [FbEvent.setDelay none, FbEvent.timerFire]).canRender = false := by
  decide

/-- C6 (amended): changing the delay value after mount cancels the old
pending timer; when the new value is a number a fresh timer governed by the
new value is scheduled, and when the new value is absent no timer is
scheduled and eligibility (`canRender`) keeps its previous value — it is not
satisfied from the start. -/
theorem c6_amended_delay_change (st : FallbackState) (d : Option Nat)
    (h1 : st.mounted = true) (h2 : d ≠ st.delayMs) :
    stepFb st (FbEvent.setDelay d) = { st with delayMs := d, timer := d } := by
  simp [stepFb, h1, h2]

/-- C6 amended, instantiated: changing the delay of a freshly mounted
`delayMs = 5` fallback to absent cancels the timer and leaves `canRender`
as it was (`false`). -/
theorem c6_amended_delay_change_witness :
    ((mountFallback (some 5)).mounted = true
      ∧ (none : Option Nat) ≠ (mountFallback (some 5)).delayMs)
    ∧ stepFb (mountFallback (some 5)) (FbEvent.setDelay none)
        = { mountFallback (some 5) with delayMs := none, timer := none } :=
  ⟨⟨by decide, by decide⟩,
    c6_amended_delay_change (mountFallback (some 5)) none (by decide) (by decide)⟩

/-- C7: a Fallback instance torn down while its delay timer is pending has no
pending timer once unmounted (the effect cleanup cancels it synchronously),
and after teardown every further event — in particular a timer tick — leaves
the state unchanged: the scheduled callback never fires after teardown. -/
theorem c7_unmount_cancels_timer (d : Option Nat) (evs evs2 : List FbEvent)
    (h : (runFb (mountFallback d) evs).mounted = false) :
    (runFb (mountFallback d) evs).timer = none ∧
    runFb (runFb (mountFallback d) evs) evs2 = runFb (mountFallback d) evs := by
  refine ⟨runFb_timerInv (mountFallback d) evs ?_ h, runFb_unmounted _ _ h⟩
  intro hc
  simp [mountFallback] at hc

/-- C7, instantiated: unmounting a `delayMs = 5` fallback while its timer is
pending cancels the timer, and a subsequent timer tick is a no-op. -/
theorem c7_unmount_cancels_timer_witness :
    (runFb (mountFallback (some 5)) [FbEvent.unmount]).mounted = false
    ∧ ((runFb (mountFallback (some 5)) [FbEvent.unmount]).timer = none ∧
        runFb (runFb (mountFallback (some 5)) [FbEvent.unmount]) [FbEvent.timerFire]
          = runFb (mountFallback (some 5)) [FbEvent.unmount]) :=
  ⟨by decide,
    c7_unmount_cancels_timer (some 5) [FbEvent.unmount] [FbEvent.timerFire] (by decide)⟩

/-- C10: within a Fallback instance's lifetime, eligibility is monotone: once
`canRender` is `true`, no sequence of re-evaluations, delay changes, timer
ticks or unmounts resets it, and from then on the fallback is hidden exactly
when the shared status is `loaded`. -/
theorem c10_canrender_monotone (st : FallbackState) (evs : List FbEvent)
    (status : ImageLoadingStatus) (h : st.canRender = true) :
    (runFb st evs).canRender = true ∧
    fallbackVisible (runFb st evs) status
      = decide (status ≠ ImageLoadingStatus.loaded) := by
  have h1 : (runFb st evs).canRender = true := by simp [runFb_canRender, h]
  exact ⟨h1, by simp [fallbackVisible, h1]⟩

/-- C10, instantiated: a fallback mounted without a delay stays eligible
after the delay prop is later changed to `5`, and with status `error` it is
rendered. -/
theorem c10_canrender_monotone_witness :
    (mountFallback none).canRender = true
    ∧ ((runFb (mountFallback none) [FbEvent.setDelay (some 5)]).canRender = true ∧
        fallbackVisible (runFb (mountFallback none) [FbEvent.setDelay (some 5)])
            ImageLoadingStatus.error
          = decide (ImageLoadingStatus.error ≠ ImageLoadingStatus.loaded)) :=
  ⟨by decide,
    c10_canrender_monotone (mountFallback none) [FbEvent.setDelay (some 5)]
      ImageLoadingStatus.error (by decide)⟩

/-! ### Image Loader claims -/

/-- C9: re-evaluating a (mounted or unmounted) Image instance any number of
times with its current source is the identity: the status is unchanged, the
decode handle's `src` is not reassigned, and the subscription counters do not
move. -/
theorem c9_rerender_idempotent (env : ImgPlatform) (st : ImgState) (n : Nat) :
    runImg env st (List.replicate n (ImgEvent.rerender st.src)) = st := by
  induction n with
  | zero => rfl
  | succ n ih =>
    have hstep : stepImg env st (ImgEvent.rerender st.src) = st := by
      by_cases hm : st.mounted = true <;> simp [stepImg, hm]
    rw [List.replicate_succ, runImg, hstep]
    exact ih

/-- C1 counterexample: mount with the uncached source `/a.png` (status
`loading`, handle assigned), re-render with the empty source (status `error`,
handle untouched), then the pending decode of `/a.png` fires `load`: the
status becomes `loaded` — not `error` — and the image element renders even
though the current source is the empty string. -/
theorem c1_counterexample :
    (runImg coldPlatform (mountImg coldPlatform (some "/a.png"))
        [ImgEvent.rerender (some ""), ImgEvent.load]).src = some "" ∧
    (runImg coldPlatform (mountImg coldPlatform (some "/a.png"))
        [ImgEvent.rerender (some ""), ImgEvent.load]).status
      = ImageLoadingStatus.loaded ∧
    renderImage (runImg coldPlatform (mountImg coldPlatform (some "/a.png"))
        [ImgEvent.rerender (some ""), ImgEvent.load]) = some (some "") := by
  decide

/-! ### Helper lemmas about the image loader -/

theorem setImageSrc_ne_idle (env : ImgPlatform) (image : String)
    (src : Option String) :
    (setImageSrcAndGetInitialState env image src).2 ≠ ImageLoadingStatus.idle := by
  cases src with
  | none => simp [setImageSrcAndGetInitialState]
  | some s =>
    simp only [setImageSrcAndGetInitialState]
    split
    · simp
    · split <;> split <;> simp

theorem applyStatusChange_status (st : ImgState) (new : ImageLoadingStatus) :
    (applyStatusChange st new).status = new := by
  by_cases h1 : new = st.status
  · simp [applyStatusChange, h1]
  · by_cases h2 : new = ImageLoadingStatus.idle
    · subst h2
      simp [applyStatusChange, if_neg h1]
    · simp [applyStatusChange, h1, h2]

theorem applyStatusChange_inv (st : ImgState) (new : ImageLoadingStatus)
    (h : imgInv st) (hn : new ≠ ImageLoadingStatus.idle) :
    imgInv (applyStatusChange st new) := by
  obtain ⟨h1, h2, h3, h4, h5, h6⟩ := h
  by_cases hc : new = st.status
  · simpa only [applyStatusChange, if_pos hc] using ⟨h1, h2, h3, h4, h5, h6⟩
  · simp only [applyStatusChange, if_neg hc, if_neg hn]
    refine ⟨?_, ?_, h3, h4, rfl, hn⟩
    · simp [h1, notifPair]
    · intro s hs
      rcases List.mem_append.mp hs with hs | hs
      · exact h2 s hs
      · rw [List.mem_singleton] at hs
        exact hs ▸ hn

theorem mountImg_inv (env : ImgPlatform) (src : Option String) :
    imgInv (mountImg env src) := by
  have hs0 := setImageSrc_ne_idle env "" src
  simp only [mountImg, applyStatusChange, if_neg hs0]
  exact ⟨by simp [notifPair], by simp [hs0], rfl, by simp, rfl, hs0⟩

theorem stepImg_inv (env : ImgPlatform) (st : ImgState) (e : ImgEvent)
    (h : imgInv st) : imgInv (stepImg env st e) := by
  obtain ⟨h1, h2, h3, h4, h5, h6⟩ := h
  cases e with
  | rerender src =>
    by_cases hm : st.mounted = true
    · by_cases hsrc : src = st.src
      · simpa [stepImg, hm, hsrc] using ⟨h1, h2, h3, h4, h5, h6⟩
      · rw [hm] at h4
        simp only [stepImg, hm, if_neg hsrc, Bool.not_true, Bool.false_eq_true,
          if_false]
        exact applyStatusChange_inv _ _ ⟨h1, h2, h3, h4, h5, h6⟩
          (setImageSrc_ne_idle env st.imageSrc src)
    · simpa [stepImg, hm] using ⟨h1, h2, h3, h4, h5, h6⟩
  | load =>
    by_cases hg : (st.mounted && !(st.imageSrc == "")) = true
    · simp only [stepImg, hg, if_true]
      exact applyStatusChange_inv _ _ ⟨h1, h2, h3, h4, h5, h6⟩ (by simp)
    · simpa [stepImg, hg] using ⟨h1, h2, h3, h4, h5, h6⟩
  | fail =>
    by_cases hg : (st.mounted && !(st.imageSrc == "")) = true
    · simp only [stepImg, hg, if_true]
      exact applyStatusChange_inv _ _ ⟨h1, h2, h3, h4, h5, h6⟩ (by simp)
    · simpa [stepImg, hg] using ⟨h1, h2, h3, h4, h5, h6⟩
  | unmount =>
    by_cases hm : st.mounted = true
    · simp only [stepImg, hm, if_true]
      refine ⟨h1, h2, h3, ?_, h5, h6⟩
      rw [h4]
      simp [hm]
    · simpa [stepImg, hm] using ⟨h1, h2, h3, h4, h5, h6⟩

theorem runImg_inv (env : ImgPlatform) (st : ImgState) (evs : List ImgEvent)
    (h : imgInv st) : imgInv (runImg env st evs) := by
  induction evs generalizing st with
  | nil => exact h
  | cons e es ih => exact ih (stepImg env st e) (stepImg_inv env st e h)

theorem runImg_append (env : ImgPlatform) (st : ImgState)
    (evs1 evs2 : List ImgEvent) :
    runImg env st (evs1 ++ evs2) = runImg env (runImg env st evs1) evs2 := by
  induction evs1 generalizing st with
  | nil => rfl
  | cons e es ih => simp [runImg, ih]

theorem stepImg_unmount_mounted (env : ImgPlatform) (st : ImgState) :
    (stepImg env st ImgEvent.unmount).mounted = false := by
  by_cases hm : st.mounted = true
  · simp [stepImg, hm]
  · simp only [Bool.not_eq_true] at hm
    simp [stepImg, hm]

/-- C3: along any run of an Image instance, the callback record is exactly
the transition record expanded transition-by-transition into the
instance-local `onLoadingStatusChange` call followed by the shared Root
setter call (`notifPair`), and no recorded status transition is to `idle` —
so every actual transition is notified, in that order, and none is
skipped. -/
theorem c3_notification_order (env : ImgPlatform) (src0 : Option String)
    (evs : List ImgEvent) :
    (runImg env (mountImg env src0) evs).notifications
      = (runImg env (mountImg env src0) evs).history.flatMap notifPair ∧
    ∀ s ∈ (runImg env (mountImg env src0) evs).history,
      s ≠ ImageLoadingStatus.idle := by
  obtain ⟨h1, h2, -⟩ := runImg_inv env (mountImg env src0) evs (mountImg_inv env src0)
  exact ⟨h1, h2⟩

/-- C4: along any run of an Image instance, the two load/error listeners are
installed exactly once for the handle's lifetime (the subscribe counter is
constantly 2), the subscribe counter exceeds the unsubscribe counter by
exactly the two live listeners while mounted and by nothing after teardown,
and after an unmount event the two counters are equal — no leaked
listeners. -/
theorem c4_subscription_balance (env : ImgPlatform) (src0 : Option String)
    (evs : List ImgEvent) :
    (runImg env (mountImg env src0) evs).subscribeCount = 2 ∧
    (runImg env (mountImg env src0) evs).subscribeCount
      = (runImg env (mountImg env src0) evs).unsubscribeCount
        + (if (runImg env (mountImg env src0) evs).mounted = true then 2 else 0) ∧
    (runImg env (mountImg env src0) (evs ++ [ImgEvent.unmount])).subscribeCount
      = (runImg env (mountImg env src0) (evs ++ [ImgEvent.unmount])).unsubscribeCount := by
  obtain ⟨-, -, h3, h4, -, -⟩ :=
    runImg_inv env (mountImg env src0) evs (mountImg_inv env src0)
  obtain ⟨-, -, h3', h4', -, -⟩ :=
    runImg_inv env (mountImg env src0) (evs ++ [ImgEvent.unmount]) (mountImg_inv env src0)
  refine ⟨h3, ?_, ?_⟩
  · rw [h3, h4]
    by_cases hm : (runImg env (mountImg env src0) evs).mounted = true <;> simp [hm]
  · have hmf : (runImg env (mountImg env src0) (evs ++ [ImgEvent.unmount])).mounted
        = false := by
      rw [runImg_append]
      simpa [runImg] using stepImg_unmount_mounted env (runImg env (mountImg env src0) evs)
    rw [h3', h4', hmf]
    simp

/-- C8: along any run of an Image instance, the image element is rendered
exactly when the shared Root status is `loaded`, and when rendered it carries
the instance's current (latest) `src` prop — never a stale one. -/
theorem c8_render_iff_loaded (env : ImgPlatform) (src0 : Option String)
    (evs : List ImgEvent) :
    renderImage (runImg env (mountImg env src0) evs)
      = (if (runImg env (mountImg env src0) evs).rootStatus = ImageLoadingStatus.loaded
          then some (runImg env (mountImg env src0) evs).src
          else none) := by
  obtain ⟨-, -, -, -, h5, -⟩ :=
    runImg_inv env (mountImg env src0) evs (mountImg_inv env src0)
  rw [renderImage, h5]

theorem setImageSrc_some (env : ImgPlatform) (image s : String) (h : s ≠ "") :
    setImageSrcAndGetInitialState env image (some s)
      = (s, if env.complete s && decide (0 < env.naturalWidth s)
            then ImageLoadingStatus.loaded
            else ImageLoadingStatus.loading) := by
  simp only [setImageSrcAndGetInitialState, if_neg h]
  by_cases he : image = s
  · simp [he]
  · simp [he]

theorem setImageSrc_falsy (env : ImgPlatform) (image : String)
    (src : Option String) (h : jsFalsy src = true) :
    setImageSrcAndGetInitialState env image src
      = (image, ImageLoadingStatus.error) := by
  cases src with
  | none => rfl
  | some s =>
    have hs : s = "" := by simpa [jsFalsy] using h
    simp [setImageSrcAndGetInitialState, hs]

theorem stepImg_falsy (env : ImgPlatform) (st : ImgState) (s : Option String)
    (hf : jsFalsy s = true) (h1 : st.imageSrc = "")
    (h2 : st.status = ImageLoadingStatus.error) :
    (stepImg env st (ImgEvent.rerender s)).imageSrc = "" ∧
    (stepImg env st (ImgEvent.rerender s)).status = ImageLoadingStatus.error := by
  by_cases hm : st.mounted = true
  · by_cases hsrc : s = st.src
    · simp [stepImg, hm, hsrc, h1, h2]
    · have hr := setImageSrc_falsy env st.imageSrc s hf
      rw [h1] at hr
      simp [stepImg, hm, hsrc, hr, applyStatusChange, h1, h2]
  · simp [stepImg, hm, h1, h2]

theorem runImg_falsy (env : ImgPlatform) (st : ImgState) (evs : List ImgEvent)
    (hevs : falsyRerenders evs = true) (h1 : st.imageSrc = "")
    (h2 : st.status = ImageLoadingStatus.error) :
    (runImg env st evs).imageSrc = "" ∧
    (runImg env st evs).status = ImageLoadingStatus.error := by
  induction evs generalizing st with
  | nil => exact ⟨h1, h2⟩
  | cons e es ih =>
    cases e with
    | rerender s =>
      have hsplit : jsFalsy s = true ∧ falsyRerenders es = true := by
        simpa [falsyRerenders, Bool.and_eq_true] using hevs
      obtain ⟨ha, hb⟩ := stepImg_falsy env st s hsplit.1 h1 h2
      rw [runImg]
      exact ih (stepImg env st (ImgEvent.rerender s)) hsplit.2 ha hb
    | load =>
      have hes : falsyRerenders es = true := by
        simpa [falsyRerenders] using hevs
      have hstep : stepImg env st ImgEvent.load = st := by
        simp [stepImg, h1]
      rw [runImg, hstep]
      exact ih st hes h1 h2
    | fail =>
      have hes : falsyRerenders es = true := by
        simpa [falsyRerenders] using hevs
      have hstep : stepImg env st ImgEvent.fail = st := by
        simp [stepImg, h1]
      rw [runImg, hstep]
      exact ih st hes h1 h2
    | unmount =>
      have hes : falsyRerenders es = true := by
        simpa [falsyRerenders] using hevs
      by_cases hm : st.mounted = true
      · rw [runImg]
        refine ih (stepImg env st ImgEvent.unmount) hes ?_ ?_
        · simp [stepImg, hm, h1]
        · simp [stepImg, hm, h2]
      · have hstep : stepImg env st ImgEvent.unmount = st := by
          simp [stepImg, hm]
        rw [runImg, hstep]
        exact ih st hes h1 h2

/-- C1 (amended): for every absent or empty source, evaluating the loader
sets status to `error` immediately without assigning the handle's `src`;
and as long as the handle has never been assigned a non-empty source —
mounted with an absent/empty source and re-rendered only with absent/empty
sources — the status is always `error` and the image element never renders.
(When a non-empty source was previously assigned, a pending notification of
that earlier decode may still change the status afterwards.) -/
theorem c1_amended_empty_src (env : ImgPlatform) (image : String)
    (src0 : Option String) (evs : List ImgEvent)
    (h0 : jsFalsy src0 = true) (h1 : falsyRerenders evs = true) :
    setImageSrcAndGetInitialState env image src0
      = (image, ImageLoadingStatus.error) ∧
    (runImg env (mountImg env src0) evs).status = ImageLoadingStatus.error ∧
    (runImg env (mountImg env src0) evs).imageSrc = "" ∧
    renderImage (runImg env (mountImg env src0) evs) = none := by
  have hmount : (mountImg env src0).imageSrc = ""
      ∧ (mountImg env src0).status = ImageLoadingStatus.error := by
    have hr := setImageSrc_falsy env "" src0 h0
    simp [mountImg, hr, applyStatusChange]
  obtain ⟨ha, hb⟩ := runImg_falsy env (mountImg env src0) evs h1 hmount.1 hmount.2
  refine ⟨setImageSrc_falsy env image src0 h0, hb, ha, ?_⟩
  simp [renderImage, hb]

/-- C1 amended, instantiated: mounting with an absent source and re-rendering
with the empty source keeps status `error`, never touches the handle and
never renders the image. -/
theorem c1_amended_empty_src_witness :
    (jsFalsy none = true
      ∧ falsyRerenders [ImgEvent.rerender (some ""), ImgEvent.fail,
          ImgEvent.unmount] = true)
    ∧ (setImageSrcAndGetInitialState coldPlatform "x" none
        = ("x", ImageLoadingStatus.error) ∧
      (runImg coldPlatform (mountImg coldPlatform none)
        [ImgEvent.rerender (some ""), ImgEvent.fail, ImgEvent.unmount]).status
        = ImageLoadingStatus.error ∧
      (runImg coldPlatform (mountImg coldPlatform none)
        [ImgEvent.rerender (some ""), ImgEvent.fail, ImgEvent.unmount]).imageSrc
        = "" ∧
      renderImage (runImg coldPlatform (mountImg coldPlatform none)
        [ImgEvent.rerender (some ""), ImgEvent.fail, ImgEvent.unmount]) = none) :=
  ⟨⟨by decide, by decide⟩,
    c1_amended_empty_src coldPlatform "x" none
      [ImgEvent.rerender (some ""), ImgEvent.fail, ImgEvent.unmount]
      (by decide) (by decide)⟩

/-- C2: for every non-empty source, `setImageSrcAndGetInitialState` leaves
the handle's `src` equal to the requested source and returns `loaded` exactly
when the handle reports complete with positive natural width (else
`loading`); the very first evaluation at mount already yields that status,
and in the cached case the transition record is just `[loaded]` — no
intermediate `loading`-only render is ever observable. -/
theorem c2_initial_state (env : ImgPlatform) (image s : String) (h : s ≠ "") :
    (setImageSrcAndGetInitialState env image (some s)).1 = s ∧
    (setImageSrcAndGetInitialState env image (some s)).2
      = (if env.complete s && decide (0 < env.naturalWidth s)
          then ImageLoadingStatus.loaded
          else ImageLoadingStatus.loading) ∧
    (mountImg env (some s)).status
      = (if env.complete s && decide (0 < env.naturalWidth s)
          then ImageLoadingStatus.loaded
          else ImageLoadingStatus.loading) ∧
    ((env.complete s && decide (0 < env.naturalWidth s)) = true →
      (mountImg env (some s)).history = [ImageLoadingStatus.loaded]) := by
  have hset := setImageSrc_some env image s h
  have hset0 := setImageSrc_some env "" s h
  refine ⟨by rw [hset], by rw [hset], ?_, ?_⟩
  · simp only [mountImg, hset0]
    exact applyStatusChange_status _ _
  · intro hc
    simp [mountImg, hset0, hc, applyStatusChange]

/-- C2, instantiated: on a platform where `/test.png` is cached with data,
mounting with that source is `loaded` synchronously and the transition record
is just `[loaded]`. -/
theorem c2_initial_state_witness :
    ("/test.png" : String) ≠ ""
    ∧ ((setImageSrcAndGetInitialState warmPlatform "" (some "/test.png")).1
        = "/test.png" ∧
      (setImageSrcAndGetInitialState warmPlatform "" (some "/test.png")).2
        = (if warmPlatform.complete "/test.png"
              && decide (0 < warmPlatform.naturalWidth "/test.png")
            then ImageLoadingStatus.loaded
            else ImageLoadingStatus.loading) ∧
      (mountImg warmPlatform (some "/test.png")).status
        = (if warmPlatform.complete "/test.png"
              && decide (0 < warmPlatform.naturalWidth "/test.png")
            then ImageLoadingStatus.loaded
            else ImageLoadingStatus.loading) ∧
      ((warmPlatform.complete "/test.png"
          && decide (0 < warmPlatform.naturalWidth "/test.png")) = true →
        (mountImg warmPlatform (some "/test.png")).history
          = [ImageLoadingStatus.loaded])) :=
  ⟨by decide, c2_initial_state warmPlatform "" "/test.png" (by decide)⟩
